import Mathlib

/-!
# N64 first demo: the frame loop of `main_thread_func`

A shallow embedding of `src/first_demo.c`.  The body of the `while(1)` loop of
`main_thread_func` is a straight-line sequence of statements; each one is a
constructor of `Stmt`, `loopBody` lists them in source order, and `exec` gives
the effect of one statement on the program state together with the
observable event it produces.

Modelling decisions:
* memory objects (`glist`, `g_displaylist_clear_framebuffer`, `g_framebuffer`)
  are functions from an index to a value; an access outside the object is
  undefined behaviour in C and makes `exec` return `none`;
* `g_framebuffer` is one flat object of `2 * SCREEN_W * SCREEN_H` 16-bit pixels,
  addressed here by byte offset, so that `g_framebuffer[i]` is the byte range
  starting at `i * FRAMEBUFFER_BYTES`;
* a `Gfx` record is kept symbolic: one constructor per GBI command used by the
  loop and by the clear block.  The bit encodings belong to the SDK header
  `ultra64.h`, which is not part of the repository;
* `angle` is a `float` in C.  Every value it takes is an integer of magnitude
  below `2^24`, where binary32 addition and comparison are exact, so it is
  carried as an `Int`; `F32_EXACT` is the bound, and the development proves
  the values stay under it;
* the `gu*` matrix calls write only the matrix globals, which no statement of
  the modelled state reads; `Stmt.matrices` stands for them.
-/

namespace FirstDemo

/-! ## Program configuration (lines 27-31) -/

def SCREEN_W : Nat := 320
def SCREEN_H : Nat := 240
def MAX_DISPLAYLISTS : Nat := 32

/-- Size in bytes of one `Gfx` record (a 64-bit word). -/
def SIZEOF_GFX : Nat := 8

/-- Size in bytes of one `uint16_t` pixel. -/
def SIZEOF_PIXEL : Nat := 2

/-- Bytes of one framebuffer, `sizeof(g_framebuffer[0])`. -/
def FRAMEBUFFER_BYTES : Nat := SCREEN_W * SCREEN_H * SIZEOF_PIXEL

/-- The byte count passed to `memcpy` on line 362. -/
def BANNER_BYTES : Nat := 320 * 32 * 2

/-- Integers of magnitude up to this bound are exact in binary32. -/
def F32_EXACT : Nat := 2 ^ 24

/-! ## Display list records -/

/-- The static display lists a `gSPDisplayList` record can point to. -/
inductive DL where
  | rsp_init
  | rdp_init
  | clear_framebuffer
  | draw_colored_quad
  | draw_textured_quad
  deriving DecidableEq, Repr

/-- Cycle types used by the clear block. -/
inductive CycleType where
  | fill
  | oneCycle
  deriving DecidableEq, Repr

/-- Image formats used by the program (`G_IM_FMT_*`). -/
inductive ImFmt where
  | rgba
  deriving DecidableEq, Repr

/-- Image pixel sizes used by the program (`G_IM_SIZ_*`). -/
inductive ImSiz where
  | b16
  deriving DecidableEq, Repr

/-- One `Gfx` record.  `dpSetColorImage` carries the framebuffer index `i` of
its image pointer `g_framebuffer[i]`. -/
inductive Gfx where
  | zero
  | spSegment (seg : Nat) (base : Nat)
  | spDisplayList (dl : DL)
  | dpFullSync
  | spEndDisplayList
  | dpSetCycleType (c : CycleType)
  | dpSetColorImage (fmt : ImFmt) (siz : ImSiz) (width : Nat) (fb : Int)
  | dpPipeSync
  | dpSetFillColor (color : Nat)
  | dpFillRectangle (ulx uly lrx lry : Nat)
  deriving DecidableEq, Repr

/-- The SDK packing `GPACK_RGBA5551(r, g, b, a)`, on 8-bit channels. -/
def GPACK_RGBA5551 (r g b a : Nat) : Nat :=
  ((r / 8) * 2048) ||| ((g / 8) * 64) ||| ((b / 8) * 2) ||| (a % 2)

/-- The initialiser of `g_displaylist_clear_framebuffer` (lines 108-116). -/
def clear_framebuffer_init : List Gfx :=
  [ Gfx.dpSetCycleType CycleType.fill,
    Gfx.dpSetColorImage ImFmt.rgba ImSiz.b16 SCREEN_W 0,
    Gfx.dpPipeSync,
    Gfx.dpSetFillColor ((GPACK_RGBA5551 0 0 0 1) * 65536 ||| GPACK_RGBA5551 0 0 0 1),
    Gfx.dpFillRectangle 0 0 (SCREEN_W - 1) (SCREEN_H - 1),
    Gfx.spEndDisplayList ]

/-! ## Program state -/

/-- The two message queues of the program. -/
inductive Queue where
  | rdp
  | retrace
  deriving DecidableEq, Repr

/-- The variables the loop reads and writes. -/
structure State where
  /-- Variable `static int g_active_framebuffer` -/
  g_active_framebuffer : Int
  /-- Variable `static float angle` -/
  angle : Int
  /-- Array `Gfx glist[MAX_DISPLAYLISTS]` -/
  glist : Nat → Gfx
  /-- Pointer `Gfx* glistp`, as an index into `glist`; `none` is `nullptr` -/
  glistp : Option Nat
  /-- Array `static Gfx g_displaylist_clear_framebuffer[]` -/
  g_displaylist_clear_framebuffer : Nat → Gfx
  /-- Field `g_rsp_task.t.data_ptr`, as an index into `glist`; `none` is `nullptr` -/
  data_ptr : Option Nat
  /-- Field `g_rsp_task.t.data_size` (a 32-bit unsigned field) -/
  data_size : Nat
  /-- Array `g_framebuffer`, byte by byte -/
  g_framebuffer : Nat → Nat

/-- The state on entry to the loop: zero-initialised statics, `glist = {0}`,
`glistp = nullptr`, the task descriptor of lines 182-211.  The framebuffer
bytes are zero as for any static object. -/
def State.init : State where
  g_active_framebuffer := 0
  angle := 0
  glist := fun _ => Gfx.zero
  glistp := none
  g_displaylist_clear_framebuffer := fun i => clear_framebuffer_init.getD i Gfx.zero
  data_ptr := none
  data_size := 0
  g_framebuffer := fun _ => 0

/-! ## Observable events -/

/-- What a statement of the loop does, as seen from outside. -/
inductive Action where
  /-- a record written through `glistp++`, with the index written -/
  | gfx (idx : Nat) (g : Gfx)
  /-- the color image of the clear block set to `g_framebuffer[fb]` -/
  | target (fb : Int)
  /-- Call of `osWritebackDCacheAll()` -/
  | writeback
  /-- Call of `osSpTaskStart(&g_rsp_task)`, with the task's data pointer and size -/
  | submit (data_ptr : Option Nat) (data_size : Nat)
  /-- Return of `osRecvMesg(q, nullptr, OS_MESG_BLOCK)` -/
  | recv (q : Queue)
  /-- Call of `osViSwapBuffer(g_framebuffer[fb])` -/
  | swapBuffer (fb : Int)
  /-- Call of `memcpy(g_framebuffer[fb], g_texture_banner, n)` -/
  | memcpy (fb : Int) (n : Nat)
  /-- Statement `g_active_framebuffer ^= 1`, with the new value -/
  | flip (newActive : Int)
  deriving DecidableEq, Repr

/-! ## Statements -/

/-- The statements of the loop body. -/
inductive Stmt where
  /-- lines 285-288 -/
  | angleUpdate
  /-- lines 290-306 -/
  | matrices
  /-- line 309 -/
  | resetCursor
  /-- a `gXXX(glistp++, ...)` call writing record `g` -/
  | append (g : Gfx)
  /-- lines 328-330 -/
  | patchClear
  /-- lines 346-347 -/
  | setTaskData
  /-- lines 350 and 364 -/
  | writebackDCacheAll
  /-- line 353 -/
  | spTaskStart
  /-- lines 356 and 367 -/
  | recvMesg (q : Queue)
  /-- line 359 -/
  | viSwapBuffer
  /-- line 362 -/
  | memcpyBanner
  /-- line 370 -/
  | flip
  deriving DecidableEq, Repr

/-- Library `memcpy(dst + off, src, n)` on byte memories. -/
def memcpy (dst : Nat → Nat) (off : Nat) (src : Nat → Nat) (n : Nat) : Nat → Nat :=
  fun i => if off ≤ i ∧ i < off + n then src (i - off) else dst i

/-- Effect of one statement: the next state and the events produced, or `none`
when the statement has undefined behaviour.  `banner` is the content of
`g_texture_banner` (from `banner.h`, not among the sources), byte by byte; it
is taken to hold at least the `BANNER_BYTES` bytes the program copies. -/
def exec (banner : Nat → Nat) (st : Stmt) (s : State) : Option (State × List Action) :=
  match st with
  | Stmt.angleUpdate =>
      let a := s.angle + 2
      some ({ s with angle := if a ≥ 360 then 0 else a }, [])
  | Stmt.matrices => some (s, [])
  | Stmt.resetCursor => some ({ s with glistp := some 0 }, [])
  | Stmt.append g =>
      match s.glistp with
      | none => none
      | some p =>
          if p < MAX_DISPLAYLISTS then
            some ({ s with glist := Function.update s.glist p g, glistp := some (p + 1) },
                  [Action.gfx p g])
          else none
  | Stmt.patchClear =>
      let rec1 := Gfx.dpSetColorImage ImFmt.rgba ImSiz.b16 SCREEN_W s.g_active_framebuffer
      let blk := Function.update s.g_displaylist_clear_framebuffer 1 rec1
      some ({ s with g_displaylist_clear_framebuffer := blk },
            [Action.target s.g_active_framebuffer])
  | Stmt.setTaskData =>
      match s.glistp with
      | none => none
      | some p =>
          some ({ s with data_ptr := some 0, data_size := (SIZEOF_GFX * p) % 2 ^ 32 }, [])
  | Stmt.writebackDCacheAll => some (s, [Action.writeback])
  | Stmt.spTaskStart => some (s, [Action.submit s.data_ptr s.data_size])
  | Stmt.recvMesg q => some (s, [Action.recv q])
  | Stmt.viSwapBuffer => some (s, [Action.swapBuffer s.g_active_framebuffer])
  | Stmt.memcpyBanner =>
      if 0 ≤ s.g_active_framebuffer ∧ s.g_active_framebuffer < 2
          ∧ BANNER_BYTES ≤ FRAMEBUFFER_BYTES then
        let off := s.g_active_framebuffer.toNat * FRAMEBUFFER_BYTES
        some ({ s with g_framebuffer := memcpy s.g_framebuffer off banner BANNER_BYTES },
              [Action.memcpy s.g_active_framebuffer BANNER_BYTES])
      else none
  | Stmt.flip =>
      let a := Int.xor s.g_active_framebuffer 1
      some ({ s with g_active_framebuffer := a }, [Action.flip a])

/-- Run statements in order, collecting the events. -/
def execList (banner : Nat → Nat) : List Stmt → State → Option (State × List Action)
  | [], s => some (s, [])
  | st :: rest, s =>
      match exec banner st s with
      | none => none
      | some (s1, t1) =>
          match execList banner rest s1 with
          | none => none
          | some (s2, t2) => some (s2, t1 ++ t2)

/-- The records appended after the cursor reset, for a given list of draw
blocks (lines 319-343). -/
def buildStmts (draws : List DL) : List Stmt :=
  [ Stmt.resetCursor,
    Stmt.append (Gfx.spSegment 0 0),
    Stmt.append (Gfx.spDisplayList DL.rdp_init),
    Stmt.append (Gfx.spDisplayList DL.rsp_init),
    Stmt.patchClear,
    Stmt.append (Gfx.spDisplayList DL.clear_framebuffer) ]
  ++ draws.map (fun d => Stmt.append (Gfx.spDisplayList d))
  ++ [ Stmt.append Gfx.dpFullSync,
       Stmt.append Gfx.spEndDisplayList ]

/-- The body of the `while(1)` loop, lines 284-370, in source order. -/
def loopBody : List Stmt :=
  [ Stmt.angleUpdate,
    Stmt.matrices,
    Stmt.resetCursor,
    Stmt.append (Gfx.spSegment 0 0),
    Stmt.append (Gfx.spDisplayList DL.rdp_init),
    Stmt.append (Gfx.spDisplayList DL.rsp_init),
    Stmt.patchClear,
    Stmt.append (Gfx.spDisplayList DL.clear_framebuffer),
    Stmt.append (Gfx.spDisplayList DL.draw_colored_quad),
    Stmt.append (Gfx.spDisplayList DL.draw_textured_quad),
    Stmt.append Gfx.dpFullSync,
    Stmt.append Gfx.spEndDisplayList,
    Stmt.setTaskData,
    Stmt.writebackDCacheAll,
    Stmt.spTaskStart,
    Stmt.recvMesg Queue.rdp,
    Stmt.viSwapBuffer,
    Stmt.memcpyBanner,
    Stmt.writebackDCacheAll,
    Stmt.recvMesg Queue.retrace,
    Stmt.flip ]

/-- One iteration of the loop. -/
def frame (banner : Nat → Nat) (s : State) : Option (State × List Action) :=
  execList banner loopBody s

/-- The first `n` iterations: the state reached and the events of each frame,
oldest first. -/
def run (banner : Nat → Nat) : Nat → State → Option (State × List (List Action))
  | 0, s => some (s, [])
  | n + 1, s =>
      match run banner n s with
      | none => none
      | some (s1, ts) =>
          match frame banner s1 with
          | none => none
          | some (s2, t) => some (s2, ts ++ [t])

/-! ## Observations on runs -/

/-- State after the first `n` iterations from the initial state. -/
def stateAt (banner : Nat → Nat) (n : Nat) : Option State :=
  (run banner n State.init).map (fun r => r.1)

/-- Value of `g_active_framebuffer` after the first `n` iterations, which is
its value at the start of frame `n + 1`. -/
def activeAt (banner : Nat → Nat) (n : Nat) : Option Int :=
  (stateAt banner n).map (fun s => s.g_active_framebuffer)

/-- Value of `angle` after the first `n` iterations; for `n ≥ 1` it is the
angle passed to `guRotate` in frame `n`. -/
def angleAt (banner : Nat → Nat) (n : Nat) : Option Int :=
  (stateAt banner n).map (fun s => s.angle)

/-- Events of frame `k`, frames being numbered from 1. -/
def frameEvents (banner : Nat → Nat) (k : Nat) : Option (List Action) :=
  (run banner k State.init).bind (fun r => r.2[k - 1]?)

/-- Events of the first `n` frames, in one sequence. -/
def traceAt (banner : Nat → Nat) (n : Nat) : Option (List Action) :=
  (run banner n State.init).map (fun r => r.2.flatten)

/-- Framebuffer index a frame renders into: the operand of its `target` event. -/
def targetOf (t : List Action) : Option Int :=
  t.findSome? (fun a => match a with
    | Action.target fb => some fb
    | _ => none)

/-- Framebuffer index a frame registers for display. -/
def registeredOf (t : List Action) : Option Int :=
  t.findSome? (fun a => match a with
    | Action.swapBuffer fb => some fb
    | _ => none)

/-- Framebuffer index a frame copies the banner into. -/
def compositedOf (t : List Action) : Option Int :=
  t.findSome? (fun a => match a with
    | Action.memcpy fb _ => some fb
    | _ => none)

/-- Framebuffer index held by the color-image record of the clear block. -/
def clearTarget (s : State) : Option Int :=
  match s.g_displaylist_clear_framebuffer 1 with
  | Gfx.dpSetColorImage _ _ _ fb => some fb
  | _ => none

/-- The records a frame writes, in the order written. -/
def recordsOf (t : List Action) : List Gfx :=
  t.filterMap (fun a => match a with
    | Action.gfx _ g => some g
    | _ => none)

/-- The indices of `glist` a frame writes, in the order written. -/
def writtenIndices (t : List Action) : List Nat :=
  t.filterMap (fun a => match a with
    | Action.gfx i _ => some i
    | _ => none)

/-! ## Closed form of one iteration -/

/-- The events one iteration produces when the active index is `a`. -/
def frameTrace (a : Int) : List Action :=
  [ Action.gfx 0 (Gfx.spSegment 0 0),
    Action.gfx 1 (Gfx.spDisplayList DL.rdp_init),
    Action.gfx 2 (Gfx.spDisplayList DL.rsp_init),
    Action.target a,
    Action.gfx 3 (Gfx.spDisplayList DL.clear_framebuffer),
    Action.gfx 4 (Gfx.spDisplayList DL.draw_colored_quad),
    Action.gfx 5 (Gfx.spDisplayList DL.draw_textured_quad),
    Action.gfx 6 Gfx.dpFullSync,
    Action.gfx 7 Gfx.spEndDisplayList,
    Action.writeback,
    Action.submit (some 0) 64,
    Action.recv Queue.rdp,
    Action.swapBuffer a,
    Action.memcpy a BANNER_BYTES,
    Action.writeback,
    Action.recv Queue.retrace,
    Action.flip (Int.xor a 1) ]

/-- The records one iteration appends, in order. -/
def frameRecords : List Gfx :=
  [ Gfx.spSegment 0 0,
    Gfx.spDisplayList DL.rdp_init,
    Gfx.spDisplayList DL.rsp_init,
    Gfx.spDisplayList DL.clear_framebuffer,
    Gfx.spDisplayList DL.draw_colored_quad,
    Gfx.spDisplayList DL.draw_textured_quad,
    Gfx.dpFullSync,
    Gfx.spEndDisplayList ]

/-- How the state after one iteration relates to the state before it. -/
structure FramePost (banner : Nat → Nat) (s s' : State) : Prop where
  active : s'.g_active_framebuffer = Int.xor s.g_active_framebuffer 1
  angle : s'.angle = if s.angle + 2 ≥ 360 then 0 else s.angle + 2
  cursor : s'.glistp = some 8
  records : (List.range 8).map s'.glist = frameRecords
  rest : ∀ i, 8 ≤ i → s'.glist i = s.glist i
  clear : s'.g_displaylist_clear_framebuffer =
    Function.update s.g_displaylist_clear_framebuffer 1
      (Gfx.dpSetColorImage ImFmt.rgba ImSiz.b16 SCREEN_W s.g_active_framebuffer)
  task_ptr : s'.data_ptr = some 0
  task_size : s'.data_size = 64
  pixels : s'.g_framebuffer =
    memcpy s.g_framebuffer (s.g_active_framebuffer.toNat * FRAMEBUFFER_BYTES) banner BANNER_BYTES

/-! ## Phases and monitors -/

/-- The per-frame states named by the specification. -/
inductive Phase where
  | BUILD
  | SUBMIT
  | AWAIT_RASTER
  | COMPOSITE
  | REGISTER
  | AWAIT_RETRACE
  | FLIP
  deriving DecidableEq, Repr

/-- The phase an event belongs to.  Cache write-backs accompany a phase and are
not phases of their own. -/
def phaseOf : Action → Option Phase
  | Action.gfx _ _ => some Phase.BUILD
  | Action.target _ => some Phase.BUILD
  | Action.writeback => none
  | Action.submit _ _ => some Phase.SUBMIT
  | Action.recv Queue.rdp => some Phase.AWAIT_RASTER
  | Action.recv Queue.retrace => some Phase.AWAIT_RETRACE
  | Action.swapBuffer _ => some Phase.REGISTER
  | Action.memcpy _ _ => some Phase.COMPOSITE
  | Action.flip _ => some Phase.FLIP

/-- Merge runs of the same phase into one entry. -/
def collapse : List Phase → List Phase
  | [] => []
  | [p] => [p]
  | p :: q :: rest => if p = q then collapse (q :: rest) else p :: collapse (q :: rest)

/-- The sequence of phases a sequence of events goes through. -/
def phasesOf (t : List Action) : List Phase :=
  collapse (t.filterMap phaseOf)

def isSubmit : Action → Bool
  | Action.submit _ _ => true
  | _ => false

def isRecv (q : Queue) : Action → Bool
  | Action.recv q' => decide (q' = q)
  | _ => false

def isSwapBuffer : Action → Bool
  | Action.swapBuffer _ => true
  | _ => false

def isMemcpy : Action → Bool
  | Action.memcpy _ _ => true
  | _ => false

/-- Run a monitor over a sequence of events; `none` when a step rejects. -/
def monitor {σ : Type} (step : σ → Action → Option σ) : σ → List Action → Option σ
  | m, [] => some m
  | m, a :: rest =>
      match step m a with
      | none => none
      | some m' => monitor step m' rest

/-- Task-slot monitor.  The state is the number of tasks outstanding: a task is
outstanding from `osSpTaskStart` until the wait on the rasterizer-done queue
returns.  A submit with a task outstanding is rejected, and so is a
rasterizer wait with none. -/
def slotStep (c : Nat) : Action → Option Nat
  | Action.submit _ _ => if c = 0 then some 1 else none
  | Action.recv Queue.rdp => if c = 0 then none else some (c - 1)
  | _ => some c

/-- State of the display monitor: the index last passed to `osViSwapBuffer`,
and whether a flip has happened since. -/
structure DisplayMon where
  registered : Option Int
  flipped : Bool
  deriving DecidableEq, Repr

/-- Display monitor.  A build whose target is the index last registered is
rejected, and so is a build after the flip whose target is not that index
xor 1. -/
def displayStep (m : DisplayMon) : Action → Option DisplayMon
  | Action.swapBuffer b => some { registered := some b, flipped := false }
  | Action.flip _ => some { m with flipped := true }
  | Action.target t =>
      match m.registered with
      | none => some m
      | some b =>
          if t ≠ b ∧ (m.flipped = false ∨ t = Int.xor b 1) then some m else none
  | _ => some m

/-- Byte offset, inside `g_framebuffer`, of pixel `(row, col)` of buffer `i`. -/
def pixelOffset (i row col : Nat) : Nat :=
  i * FRAMEBUFFER_BYTES + (row * SCREEN_W + col) * SIZEOF_PIXEL

/-- The two bytes of pixel `(row, col)` of buffer `i`. -/
def pixelAt (fb : Nat → Nat) (i row col : Nat) : Nat × Nat :=
  (fb (pixelOffset i row col), fb (pixelOffset i row col + 1))

/-- The statements of the loop body up to and including `osSpTaskStart`. -/
def throughSubmit : List Stmt := loopBody.take 15

/-- The statements of the loop body up to and including the wait on the
retrace queue. -/
def throughRetraceWait : List Stmt := loopBody.take 20

/-- State in which `osSpTaskStart` is called in frame `k`, frames being numbered
from 1: the command list and the clear block as the coprocessor is given
them. -/
def submitStateAt (banner : Nat → Nat) (k : Nat) : Option State :=
  (stateAt banner (k - 1)).bind (fun s =>
    (execList banner throughSubmit s).map (fun r => r.1))

/-! ## Lemmas -/

theorem frame_some (banner : Nat → Nat) (s : State)
    (h : s.g_active_framebuffer = 0 ∨ s.g_active_framebuffer = 1) :
    ∃ s', frame banner s = some (s', frameTrace s.g_active_framebuffer)
      ∧ FramePost banner s s' := by
  obtain ⟨a, ang, gl, gp, clr, dp, ds, fb⟩ := s
  simp only at h
  rcases h with h | h <;> subst h
  · refine ⟨_, rfl, ?_⟩
    constructor
    · rfl
    · rfl
    · rfl
    · rfl
    · intro i hi
      simp only [Function.update, eq_rec_constant, dite_eq_ite]
      repeat (rw [if_neg (by omega)])
    · rfl
    · rfl
    · rfl
    · dsimp only
  · refine ⟨_, rfl, ?_⟩
    constructor
    · rfl
    · rfl
    · rfl
    · rfl
    · intro i hi
      simp only [Function.update, eq_rec_constant, dite_eq_ite]
      repeat (rw [if_neg (by omega)])
    · rfl
    · rfl
    · rfl
    · dsimp only

theorem xor_one_mod_two (n : Nat) :
    Int.xor ((n % 2 : Nat) : Int) 1 = (((n + 1) % 2 : Nat) : Int) := by
  rcases Nat.mod_two_eq_zero_or_one n with h | h
  · have h1 : (n + 1) % 2 = 1 := by omega
    rw [h, h1]; rfl
  · have h1 : (n + 1) % 2 = 0 := by omega
    rw [h, h1]; rfl

theorem run_succ (banner : Nat → Nat) (n : Nat) (s0 s s' : State)
    (ts : List (List Action)) (t : List Action)
    (h1 : run banner n s0 = some (s, ts)) (h2 : frame banner s = some (s', t)) :
    run banner (n + 1) s0 = some (s', ts ++ [t]) := by
  simp only [run, h1, h2]

/-- The first `n` iterations from the initial state all complete, and the
active index, the angle and the per-frame events have a closed form. -/
theorem run_inv (banner : Nat → Nat) (n : Nat) :
    ∃ s ts, run banner n State.init = some (s, ts)
      ∧ s.g_active_framebuffer = ((n % 2 : Nat) : Int)
      ∧ s.angle = ((2 * n % 360 : Nat) : Int)
      ∧ ts = (List.range n).map (fun k => frameTrace ((k % 2 : Nat) : Int)) := by
  induction n with
  | zero => exact ⟨State.init, [], rfl, rfl, rfl, rfl⟩
  | succ n ih =>
    obtain ⟨s, ts, hrun, hact, hang, hts⟩ := ih
    have h01 : s.g_active_framebuffer = 0 ∨ s.g_active_framebuffer = 1 := by
      rcases Nat.mod_two_eq_zero_or_one n with h | h
      · left; rw [hact, h]; rfl
      · right; rw [hact, h]; rfl
    obtain ⟨s', hfr, hpost⟩ := frame_some banner s h01
    refine ⟨s', ts ++ [frameTrace s.g_active_framebuffer],
      run_succ banner n State.init s s' ts _ hrun hfr, ?_, ?_, ?_⟩
    · rw [hpost.active, hact]; exact xor_one_mod_two n
    · rw [hpost.angle, hang]
      split_ifs <;> omega
    · rw [List.range_succ, List.map_append, hts, hact]; rfl

/-- A frame started in a state reached from the initial state completes. -/
theorem frame_reached (banner : Nat → Nat) (n : Nat) :
    ∃ s ts s', run banner n State.init = some (s, ts)
      ∧ frame banner s = some (s', frameTrace s.g_active_framebuffer)
      ∧ run banner (n + 1) State.init = some (s', ts ++ [frameTrace s.g_active_framebuffer])
      ∧ s.g_active_framebuffer = ((n % 2 : Nat) : Int)
      ∧ s.angle = ((2 * n % 360 : Nat) : Int)
      ∧ ts = (List.range n).map (fun k => frameTrace ((k % 2 : Nat) : Int))
      ∧ FramePost banner s s' := by
  obtain ⟨s, ts, hrun, hact, hang, hts⟩ := run_inv banner n
  have h01 : s.g_active_framebuffer = 0 ∨ s.g_active_framebuffer = 1 := by
    rcases Nat.mod_two_eq_zero_or_one n with h | h
    · left; rw [hact, h]; rfl
    · right; rw [hact, h]; rfl
  obtain ⟨s', hfr, hpost⟩ := frame_some banner s h01
  exact ⟨s, ts, s', hrun, hfr, run_succ banner n State.init s s' ts _ hrun hfr,
    hact, hang, hts, hpost⟩

theorem stateAt_some (banner : Nat → Nat) (n : Nat) :
    ∃ s, stateAt banner n = some s
      ∧ s.g_active_framebuffer = ((n % 2 : Nat) : Int)
      ∧ s.angle = ((2 * n % 360 : Nat) : Int) := by
  obtain ⟨s, ts, hrun, hact, hang, _⟩ := run_inv banner n
  exact ⟨s, by simp [stateAt, hrun], hact, hang⟩

theorem activeAt_eq (banner : Nat → Nat) (n : Nat) :
    activeAt banner n = some ((n % 2 : Nat) : Int) := by
  obtain ⟨s, hs, hact, _⟩ := stateAt_some banner n
  simp [activeAt, hs, hact]

theorem angleAt_eq (banner : Nat → Nat) (n : Nat) :
    angleAt banner n = some ((2 * n % 360 : Nat) : Int) := by
  obtain ⟨s, hs, _, hang⟩ := stateAt_some banner n
  simp [angleAt, hs, hang]

theorem frameEvents_eq (banner : Nat → Nat) (n : Nat) :
    frameEvents banner (n + 1) = some (frameTrace ((n % 2 : Nat) : Int)) := by
  obtain ⟨s, ts, hrun, _, _, hts⟩ := run_inv banner (n + 1)
  simp [frameEvents, hrun, hts, List.getElem?_range]

theorem traceAt_eq (banner : Nat → Nat) (n : Nat) :
    traceAt banner n
      = some ((List.range n).map (fun k => frameTrace ((k % 2 : Nat) : Int))).flatten := by
  obtain ⟨s, ts, hrun, _, _, hts⟩ := run_inv banner n
  simp [traceAt, hrun, hts]

theorem xor_one_xor_one (a : Int) : Int.xor (Int.xor a 1) 1 = a := by
  cases a with
  | ofNat m =>
    show Int.ofNat ((m ^^^ 1) ^^^ 1) = Int.ofNat m
    rw [Nat.xor_cancel_right]
  | negSucc m =>
    show Int.negSucc ((m ^^^ 1) ^^^ 1) = Int.negSucc m
    rw [Nat.xor_cancel_right]

theorem exec_keeps_active (banner : Nat → Nat) (st : Stmt) (s s' : State) (t : List Action)
    (hst : st ≠ Stmt.flip) (h : exec banner st s = some (s', t)) :
    s'.g_active_framebuffer = s.g_active_framebuffer := by
  cases st with
  | flip => exact absurd rfl hst
  | append g =>
    simp only [exec] at h
    split at h
    · exact absurd h (by simp)
    · split_ifs at h
      simp only [Option.some.injEq, Prod.mk.injEq] at h
      rw [← h.1]
  | setTaskData =>
    simp only [exec] at h
    split at h
    · exact absurd h (by simp)
    · simp only [Option.some.injEq, Prod.mk.injEq] at h
      rw [← h.1]
  | memcpyBanner =>
    simp only [exec] at h
    split_ifs at h
    simp only [Option.some.injEq, Prod.mk.injEq] at h
    rw [← h.1]
  | _ =>
    simp only [exec, Option.some.injEq, Prod.mk.injEq] at h
    rw [← h.1]

theorem monitor_append {σ : Type} (step : σ → Action → Option σ) (l1 l2 : List Action) (m : σ) :
    monitor step m (l1 ++ l2) = (monitor step m l1).bind (fun m' => monitor step m' l2) := by
  induction l1 generalizing m with
  | nil => rfl
  | cons a l ih =>
    simp only [List.cons_append, monitor]
    cases step m a with
    | none => rfl
    | some m' => exact ih m'

theorem monitor_take {σ : Type} (step : σ → Action → Option σ) (l : List Action) (m m1 : σ)
    (k : Nat) (h : monitor step m l = some m1) : ∃ m2, monitor step m (l.take k) = some m2 := by
  induction l generalizing m k with
  | nil => exact ⟨m, by simp [monitor]⟩
  | cons a l ih =>
    cases k with
    | zero => exact ⟨m, by simp [monitor]⟩
    | succ k =>
      simp only [monitor] at h
      simp only [List.take_succ_cons, monitor]
      cases hs : step m a with
      | none => rw [hs] at h; exact absurd h (by simp)
      | some m' =>
        rw [hs] at h
        exact ih m' k h

theorem slot_count (l : List Action) (c c1 : Nat) (h : monitor slotStep c l = some c1) :
    c1 + l.countP (isRecv Queue.rdp) = c + l.countP isSubmit ∧ (c ≤ 1 → c1 ≤ 1) := by
  induction l generalizing c with
  | nil =>
    simp only [monitor, Option.some.injEq] at h
    subst h
    exact ⟨rfl, fun hc => hc⟩
  | cons a l ih =>
    simp only [monitor] at h
    cases hs : slotStep c a with
    | none => rw [hs] at h; exact absurd h (by simp)
    | some c' =>
      rw [hs] at h
      obtain ⟨h1, h2⟩ := ih c' h
      cases a with
      | submit dp ds =>
        simp only [slotStep] at hs
        split_ifs at hs with hc
        simp only [Option.some.injEq] at hs
        subst hs
        simp only [List.countP_cons, isSubmit, isRecv] at h1 ⊢
        constructor
        · simp only [if_true, Bool.false_eq_true, if_false] at h1 ⊢; omega
        · intro _; exact h2 (le_refl 1)
      | recv q =>
        cases q with
        | rdp =>
          simp only [slotStep] at hs
          split_ifs at hs with hc
          simp only [Option.some.injEq] at hs
          subst hs
          simp only [List.countP_cons, isSubmit, isRecv, decide_True] at h1 ⊢
          constructor
          · simp only [if_true, Bool.false_eq_true, if_false] at h1 ⊢; omega
          · intro hc1; exact h2 (by omega)
        | retrace =>
          simp only [slotStep, Option.some.injEq] at hs
          subst hs
          simp only [List.countP_cons, isSubmit, isRecv] at h1 ⊢
          constructor
          · simpa using h1
          · exact h2
      | _ =>
        simp only [slotStep, Option.some.injEq] at hs
        subst hs
        simp only [List.countP_cons, isSubmit, isRecv] at h1 ⊢
        constructor
        · simpa using h1
        · exact h2

theorem slot_frames (n : Nat) :
    monitor slotStep 0 ((List.range n).map (fun k => frameTrace ((k % 2 : Nat) : Int))).flatten
      = some 0 := by
  induction n with
  | zero => rfl
  | succ n ih =>
    rw [List.range_succ, List.map_append, List.flatten_append, monitor_append, ih]
    rfl

theorem display_frames (n : Nat) :
    monitor displayStep { registered := none, flipped := false }
        ((List.range (n + 1)).map (fun k => frameTrace ((k % 2 : Nat) : Int))).flatten
      = some { registered := some ((n % 2 : Nat) : Int), flipped := true } := by
  induction n with
  | zero => rfl
  | succ n ih =>
    rw [List.range_succ, List.map_append, List.flatten_append, monitor_append, ih]
    simp only [List.map_cons, List.map_nil, List.flatten_cons, List.flatten_nil, List.append_nil]
    rcases Nat.mod_two_eq_zero_or_one n with h | h
    · have h1 : (n + 1) % 2 = 1 := by omega
      rw [h, h1]; rfl
    · have h1 : (n + 1) % 2 = 0 := by omega
      rw [h, h1]; rfl

theorem frameTrace_positions (a : Int) :
    (frameTrace a).findIdx isSubmit = 10
    ∧ (frameTrace a).findIdx (isRecv Queue.rdp) = 11
    ∧ (frameTrace a).findIdx isSwapBuffer = 12
    ∧ (frameTrace a).findIdx isMemcpy = 13
    ∧ (frameTrace a).findIdx (isRecv Queue.retrace) = 15
    ∧ (frameTrace a).length = 17 :=
  ⟨rfl, rfl, rfl, rfl, rfl, rfl⟩

theorem loopBody_split :
    loopBody = [Stmt.angleUpdate, Stmt.matrices]
      ++ buildStmts [DL.draw_colored_quad, DL.draw_textured_quad]
      ++ [Stmt.setTaskData, Stmt.writebackDCacheAll, Stmt.spTaskStart, Stmt.recvMesg Queue.rdp,
          Stmt.viSwapBuffer, Stmt.memcpyBanner, Stmt.writebackDCacheAll,
          Stmt.recvMesg Queue.retrace, Stmt.flip] := rfl

theorem execList_cons (banner : Nat → Nat) (st : Stmt) (rest : List Stmt) (s : State) :
    execList banner (st :: rest) s
      = (exec banner st s).bind (fun r1 =>
          (execList banner rest r1.1).map (fun r2 => (r2.1, r1.2 ++ r2.2))) := by
  simp only [execList]
  cases exec banner st s with
  | none => rfl
  | some r =>
    obtain ⟨s1, t1⟩ := r
    simp only [Option.some_bind]
    cases execList banner rest s1 with
    | none => rfl
    | some r2 => rfl

theorem execList_append (banner : Nat → Nat) (l1 l2 : List Stmt) (s : State) :
    execList banner (l1 ++ l2) s
      = (execList banner l1 s).bind (fun r1 =>
          (execList banner l2 r1.1).map (fun r2 => (r2.1, r1.2 ++ r2.2))) := by
  induction l1 generalizing s with
  | nil =>
    simp only [List.nil_append, execList, Option.some_bind, List.nil_append]
    cases execList banner l2 s <;> rfl
  | cons st l ih =>
    rw [List.cons_append, execList_cons, execList_cons]
    cases exec banner st s with
    | none => rfl
    | some r =>
      simp only [Option.some_bind, ih]
      cases execList banner l r.1 with
      | none => rfl
      | some r1 =>
        simp only [Option.some_bind, Option.map_some']
        cases execList banner l2 r1.1 with
        | none => rfl
        | some r2 => simp only [Option.map_some', List.append_assoc]

/-- A run of `glistp++` writes from cursor `p` that fits the buffer succeeds and
writes exactly the given records at `p, p + 1, ...`, leaving lower indices
alone. -/
theorem exec_appends (banner : Nat → Nat) (recs : List Gfx) (s : State) (p : Nat)
    (hp : s.glistp = some p) (hfit : p + recs.length ≤ MAX_DISPLAYLISTS) :
    ∃ s' t, execList banner (recs.map Stmt.append) s = some (s', t)
      ∧ s'.glistp = some (p + recs.length)
      ∧ recordsOf t = recs
      ∧ writtenIndices t = (List.range recs.length).map (fun i => p + i)
      ∧ (List.range recs.length).map (fun i => s'.glist (p + i)) = recs
      ∧ (∀ j, j < p → s'.glist j = s.glist j) := by
  induction recs generalizing s p with
  | nil => exact ⟨s, [], rfl, by simpa using hp, rfl, rfl, rfl, fun _ _ => rfl⟩
  | cons g rest ih =>
    simp only [List.length_cons] at hfit
    have hlt : p < MAX_DISPLAYLISTS := by omega
    have hex : exec banner (Stmt.append g) s
        = some ({ s with glist := Function.update s.glist p g, glistp := some (p + 1) },
            [Action.gfx p g]) := by
      simp only [exec, hp, if_pos hlt]
    obtain ⟨s', t, hrun, hcur, hrec, hidx, hmap, hlow⟩ :=
      ih { s with glist := Function.update s.glist p g, glistp := some (p + 1) } (p + 1) rfl
        (by omega)
    refine ⟨s', Action.gfx p g :: t, ?_, ?_, ?_, ?_, ?_, ?_⟩
    · simp only [List.map_cons, execList, hex, hrun, List.singleton_append]
    · rw [hcur, List.length_cons]; congr 1; omega
    · simp only [recordsOf, List.filterMap_cons] at hrec ⊢
      rw [hrec]
    · simp only [writtenIndices, List.filterMap_cons] at hidx ⊢
      rw [hidx, List.length_cons, List.range_succ_eq_map, List.map_cons, List.map_map]
      simp only [Nat.add_zero, List.cons.injEq, true_and]
      apply List.map_congr_left
      intro i _
      simp only [Function.comp]; omega
    · rw [List.length_cons, List.range_succ_eq_map, List.map_cons, List.map_map]
      have h0 : s'.glist (p + 0) = g := by
        rw [Nat.add_zero, hlow p (by omega)]
        simp only [Function.update_same]
      rw [h0]
      refine congrArg (fun l => g :: l) (Eq.trans ?_ hmap)
      apply List.map_congr_left
      intro i _
      simp only [Function.comp]
      congr 1; omega
    · intro j hj
      rw [hlow j (by omega)]
      simp only [Function.update]
      rw [dif_neg (by omega)]

theorem run_clear_inv (banner : Nat → Nat) (n : Nat) :
    ∀ s ts, run banner n State.init = some (s, ts) →
      ∀ i, i ≠ 1 → s.g_displaylist_clear_framebuffer i
        = State.init.g_displaylist_clear_framebuffer i := by
  induction n with
  | zero =>
    intro s ts h i _
    simp only [run, Option.some.injEq, Prod.mk.injEq] at h
    rw [← h.1]
  | succ n ih =>
    intro s1 ts1 h i hi
    obtain ⟨s, ts, s', hrun, _, hrun1, _, _, _, hpost⟩ := frame_reached banner n
    rw [hrun1] at h
    simp only [Option.some.injEq, Prod.mk.injEq] at h
    rw [← h.1, hpost.clear, Function.update_noteq hi]
    exact ih s ts hrun i hi

theorem buildStmts_shape (draws : List DL) :
    buildStmts draws
      = [ Stmt.resetCursor,
          Stmt.append (Gfx.spSegment 0 0),
          Stmt.append (Gfx.spDisplayList DL.rdp_init),
          Stmt.append (Gfx.spDisplayList DL.rsp_init),
          Stmt.patchClear,
          Stmt.append (Gfx.spDisplayList DL.clear_framebuffer) ]
        ++ (draws.map Gfx.spDisplayList ++ [Gfx.dpFullSync, Gfx.spEndDisplayList]).map
            Stmt.append := by
  simp only [buildStmts, List.map_append, List.map_map, List.append_assoc, List.map_cons,
    List.map_nil]
  rfl

theorem map_range_get {α : Type} (f : Nat → α) (l : List α) (n : Nat)
    (h : (List.range n).map f = l) (i : Nat) (x : α) (hi : l[i]? = some x) : f i = x := by
  subst h
  simp only [List.getElem?_map, Option.map_eq_some'] at hi
  obtain ⟨a, ha, hfa⟩ := hi
  rw [List.getElem?_range] at ha
  · simp only [Option.some.injEq] at ha
    rw [ha]; exact hfa
  · by_contra hn
    rw [List.getElem?_eq_none (by simpa using hn)] at ha
    exact absurd ha (by simp)

/-- The command list for any list of draw blocks that fits the buffer, up to
and including the task data fields. -/
theorem build_general (banner : Nat → Nat) (s : State) (draws : List DL)
    (hfit : 6 + draws.length ≤ MAX_DISPLAYLISTS) :
    ∃ s' t, execList banner (buildStmts draws ++ [Stmt.setTaskData]) s = some (s', t)
      ∧ recordsOf t
          = [ Gfx.spSegment 0 0, Gfx.spDisplayList DL.rdp_init, Gfx.spDisplayList DL.rsp_init,
              Gfx.spDisplayList DL.clear_framebuffer ]
            ++ draws.map Gfx.spDisplayList ++ [Gfx.dpFullSync, Gfx.spEndDisplayList]
      ∧ s'.data_ptr = some 0
      ∧ s'.data_size = SIZEOF_GFX * (6 + draws.length)
      ∧ (List.range (6 + draws.length)).map s'.glist = recordsOf t
      ∧ s'.glist (6 + draws.length - 1) = Gfx.spEndDisplayList
      ∧ s'.glist (6 + draws.length - 2) = Gfx.dpFullSync := by
  have h6 : ∃ s6, execList banner
        [ Stmt.resetCursor,
          Stmt.append (Gfx.spSegment 0 0),
          Stmt.append (Gfx.spDisplayList DL.rdp_init),
          Stmt.append (Gfx.spDisplayList DL.rsp_init),
          Stmt.patchClear,
          Stmt.append (Gfx.spDisplayList DL.clear_framebuffer) ] s
        = some (s6, [ Action.gfx 0 (Gfx.spSegment 0 0),
            Action.gfx 1 (Gfx.spDisplayList DL.rdp_init),
            Action.gfx 2 (Gfx.spDisplayList DL.rsp_init),
            Action.target s.g_active_framebuffer,
            Action.gfx 3 (Gfx.spDisplayList DL.clear_framebuffer) ])
        ∧ s6.glistp = some 4
        ∧ s6.glist 0 = Gfx.spSegment 0 0
        ∧ s6.glist 1 = Gfx.spDisplayList DL.rdp_init
        ∧ s6.glist 2 = Gfx.spDisplayList DL.rsp_init
        ∧ s6.glist 3 = Gfx.spDisplayList DL.clear_framebuffer :=
    ⟨_, rfl, rfl, rfl, rfl, rfl, rfl⟩
  obtain ⟨s6, hrun6, hcur6, g0, g1, g2, g3⟩ := h6
  have hlen : (draws.map Gfx.spDisplayList ++ [Gfx.dpFullSync, Gfx.spEndDisplayList]).length
      = draws.length + 2 := by simp
  obtain ⟨s7, t7, hrun7, hcur7, hrec7, _, hmap7, hlow7⟩ :=
    exec_appends banner (draws.map Gfx.spDisplayList ++ [Gfx.dpFullSync, Gfx.spEndDisplayList])
      s6 4 hcur6 (by rw [hlen]; omega)
  rw [hlen] at hcur7 hmap7
  have hset : exec banner Stmt.setTaskData s7
      = some ({ s7 with data_ptr := some 0,
                        data_size := (SIZEOF_GFX * (4 + (draws.length + 2))) % 2 ^ 32 }, []) := by
    simp only [exec, hcur7]
  refine ⟨{ s7 with data_ptr := some 0,
                    data_size := (SIZEOF_GFX * (4 + (draws.length + 2))) % 2 ^ 32 },
    [ Action.gfx 0 (Gfx.spSegment 0 0), Action.gfx 1 (Gfx.spDisplayList DL.rdp_init),
      Action.gfx 2 (Gfx.spDisplayList DL.rsp_init), Action.target s.g_active_framebuffer,
      Action.gfx 3 (Gfx.spDisplayList DL.clear_framebuffer) ] ++ t7,
    ?_, ?_, rfl, ?_, ?_, ?_, ?_⟩
  · rw [buildStmts_shape, execList_append, execList_append, hrun6]
    simp only [Option.some_bind, hrun7, Option.map_some', execList, hset, List.append_nil]
  · simp only [recordsOf, List.filterMap_append, List.append_nil] at hrec7 ⊢
    rw [hrec7]
    simp only [List.filterMap_cons, List.filterMap_nil, List.cons_append, List.nil_append,
      List.append_assoc]
  · show (SIZEOF_GFX * (4 + (draws.length + 2))) % 2 ^ 32 = SIZEOF_GFX * (6 + draws.length)
    simp only [SIZEOF_GFX, MAX_DISPLAYLISTS] at hfit ⊢
    omega
  · simp only [recordsOf, List.filterMap_append, List.append_nil] at hrec7 ⊢
    rw [hrec7]
    have hr : 6 + draws.length = 4 + (draws.length + 2) := by omega
    rw [hr, List.range_add, List.map_append, List.map_map]
    have h4 : List.range 4 = [0, 1, 2, 3] := rfl
    rw [h4]
    simp only [List.map_cons, List.map_nil, List.filterMap_cons, List.filterMap_nil,
      List.cons_append, List.nil_append]
    rw [hlow7 0 (by omega), hlow7 1 (by omega), hlow7 2 (by omega), hlow7 3 (by omega),
      g0, g1, g2, g3]
    have : (List.range (draws.length + 2)).map (s7.glist ∘ fun x => 4 + x)
        = List.map Gfx.spDisplayList draws ++ [Gfx.dpFullSync, Gfx.spEndDisplayList] := hmap7
    rw [this]
  · have h := map_range_get _ _ _ hmap7 (draws.length + 1) Gfx.spEndDisplayList
      (by rw [List.getElem?_append_right (by simp)]; simp)
    have hi : 6 + draws.length - 1 = 4 + (draws.length + 1) := by omega
    rw [hi]; exact h
  · have h := map_range_get _ _ _ hmap7 draws.length Gfx.dpFullSync
      (by rw [List.getElem?_append_right (by simp)]; simp)
    have hi : 6 + draws.length - 2 = 4 + draws.length := by omega
    rw [hi]; exact h

/-- The state in which `osSpTaskStart` is called, from any state at the start
of the iteration. -/
theorem submit_some (banner : Nat → Nat) (s : State) :
    ∃ sb, execList banner throughSubmit s
        = some (sb, (frameTrace s.g_active_framebuffer).take 11)
      ∧ sb.data_ptr = some 0
      ∧ sb.data_size = 64
      ∧ (List.range 8).map sb.glist = frameRecords
      ∧ sb.glist 7 = Gfx.spEndDisplayList
      ∧ sb.glist 6 = Gfx.dpFullSync :=
  ⟨_, rfl, rfl, rfl, rfl, rfl, rfl⟩

/-- The state in which the wait on the retrace queue returns. -/
theorem retrace_wait_some (banner : Nat → Nat) (s : State)
    (h : s.g_active_framebuffer = 0 ∨ s.g_active_framebuffer = 1) :
    ∃ sw, execList banner throughRetraceWait s
        = some (sw, (frameTrace s.g_active_framebuffer).take 16)
      ∧ sw.g_framebuffer = memcpy s.g_framebuffer
          (s.g_active_framebuffer.toNat * FRAMEBUFFER_BYTES) banner BANNER_BYTES := by
  obtain ⟨a, ang, gl, gp, clr, dp, ds, fb⟩ := s
  simp only at h
  rcases h with h | h <;> subst h
  · refine ⟨_, rfl, ?_⟩
    dsimp only
  · refine ⟨_, rfl, ?_⟩
    dsimp only

theorem memcpy_inside (dst src : Nat → Nat) (off n j : Nat) (hj : j < n) :
    memcpy dst off src n (off + j) = src j := by
  simp only [memcpy]
  rw [if_pos ⟨by omega, by omega⟩]
  congr 1; omega

theorem memcpy_outside (dst src : Nat → Nat) (off n i : Nat) (hi : i < off ∨ off + n ≤ i) :
    memcpy dst off src n i = dst i := by
  simp only [memcpy]
  rw [if_neg (by omega)]

/-- The color image the clear block holds when `osSpTaskStart` is called, from
any state at the start of the iteration. -/
theorem submit_clear (banner : Nat → Nat) (s : State) :
    ∃ sb, execList banner throughSubmit s
        = some (sb, (frameTrace s.g_active_framebuffer).take 11)
      ∧ clearTarget sb = some s.g_active_framebuffer :=
  ⟨_, rfl, rfl⟩

theorem submitStateAt_clear (banner : Nat → Nat) (n : Nat) :
    (submitStateAt banner (n + 1)).bind clearTarget = some ((n % 2 : Nat) : Int) := by
  obtain ⟨s, hs, hact, _⟩ := stateAt_some banner n
  obtain ⟨sb, hsb, hclr⟩ := submit_clear banner s
  simp only [submitStateAt, Nat.add_sub_cancel, hs, Option.some_bind, hsb, Option.map_some']
  rw [hclr, hact]

theorem stateAt_clear (banner : Nat → Nat) (n : Nat) :
    (stateAt banner (n + 1)).bind clearTarget = some ((n % 2 : Nat) : Int) := by
  obtain ⟨s, ts, s', _, _, hrun, hact, _, _, hpost⟩ := frame_reached banner n
  have hs : stateAt banner (n + 1) = some s' := by simp [stateAt, hrun]
  rw [hs, ← hact]
  show clearTarget s' = _
  unfold clearTarget
  rw [hpost.clear, Function.update_same]

/-! ## The claims -/

/-- C4: starting from 0, `g_active_framebuffer` is always 0 or 1 and alternates:
at the start of frame `k + 1` it is `k mod 2` and after that frame's flip it is
`(k + 1) mod 2`, the flip event carrying that value; flipping twice restores
any index; no statement other than the flip changes the index, and the flip
occurs once per iteration, as its last statement. -/
theorem C4_active_index_alternates (banner : Nat → Nat) :
    State.init.g_active_framebuffer = 0
    ∧ (∀ k, activeAt banner k = some ((k % 2 : Nat) : Int)
        ∧ activeAt banner (k + 1) = some (((k + 1) % 2 : Nat) : Int)
        ∧ activeAt banner (k + 1) ≠ activeAt banner k
        ∧ (frameEvents banner (k + 1)).bind (fun t => t.getLast?)
            = some (Action.flip (((k + 1) % 2 : Nat) : Int)))
    ∧ (∀ k, activeAt banner k = some 0 ∨ activeAt banner k = some 1)
    ∧ (∀ s, ((exec banner Stmt.flip s).bind (fun r => exec banner Stmt.flip r.1)).map
          (fun r => r.1.g_active_framebuffer) = some s.g_active_framebuffer)
    ∧ (∀ st s s' t, st ≠ Stmt.flip → exec banner st s = some (s', t) →
          s'.g_active_framebuffer = s.g_active_framebuffer)
    ∧ loopBody.count Stmt.flip = 1
    ∧ loopBody.getLast? = some Stmt.flip := by
  refine ⟨rfl, ?_, ?_, ?_, ?_, by decide, by decide⟩
  · intro k
    refine ⟨activeAt_eq banner k, activeAt_eq banner (k + 1), ?_, ?_⟩
    · rw [activeAt_eq, activeAt_eq]
      intro h
      simp only [Option.some.injEq, Nat.cast_inj] at h
      omega
    · rw [frameEvents_eq, ← xor_one_mod_two]
      rfl
  · intro k
    rw [activeAt_eq]
    rcases Nat.mod_two_eq_zero_or_one k with h | h
    · left; rw [h]; rfl
    · right; rw [h]; rfl
  · intro s
    show some (Int.xor (Int.xor s.g_active_framebuffer 1) 1) = some s.g_active_framebuffer
    rw [xor_one_xor_one]
  · intro st s s' t hst h
    exact exec_keeps_active banner st s s' t hst h

/-- Witness for C4 at the all-zero banner: four frames give indices 0,1,0,1,0,
and the cursor reset statement leaves the index of the initial state alone. -/
theorem C4_active_index_alternates_witness :
    (List.range 5).map (activeAt (fun _ => 0)) = [some 0, some 1, some 0, some 1, some 0]
    ∧ ((exec (fun _ => 0) Stmt.resetCursor State.init).map
        (fun r => r.1.g_active_framebuffer)) = some 0 := by
  have h := C4_active_index_alternates (fun _ => 0)
  refine ⟨?_, ?_⟩
  · simp only [List.range, List.range.loop, List.map]
    rw [(h.2.1 0).1, (h.2.1 1).1, (h.2.1 2).1, (h.2.1 3).1, (h.2.1 4).1]
    rfl
  · have h2 := h.2.2.2.2.1 Stmt.resetCursor State.init
      { State.init with glistp := some 0 } [] (by decide) rfl
    simp only [exec, Option.map_some', Option.some.injEq]
    exact h2

/-- C10: the angle after `n` iterations (the one used in frame `n`) is
`2 n mod 360`; it lies in `[0, 360)`, is even, is at most 358, and together
with the sum `angle + 2` the update computes it stays in the range where
binary32 is exact; each update adds 2 modulo 360, frame 179 uses 358 and
frame 180 uses 0; the sequence repeats after 180 frames and after no smaller
positive number of frames. -/
theorem C10_angle_wraps_exactly (banner : Nat → Nat) (n : Nat) :
    angleAt banner 0 = some 0
    ∧ angleAt banner n = some ((2 * n % 360 : Nat) : Int)
    ∧ (∃ a, angleAt banner n = some a ∧ 0 ≤ a ∧ a < 360 ∧ a % 2 = 0 ∧ a ≤ 358
        ∧ a.natAbs ≤ F32_EXACT ∧ (a + 2).natAbs ≤ F32_EXACT)
    ∧ (∃ a b, angleAt banner n = some a ∧ angleAt banner (n + 1) = some b
        ∧ b = (a + 2) % 360)
    ∧ angleAt banner 179 = some 358
    ∧ angleAt banner 180 = some 0
    ∧ angleAt banner (n + 180) = angleAt banner n
    ∧ (∀ p, 0 < p → p < 180 → angleAt banner (n + p) ≠ angleAt banner n) := by
  refine ⟨angleAt_eq banner 0, angleAt_eq banner n, ?_, ?_, angleAt_eq banner 179,
    angleAt_eq banner 180, ?_, ?_⟩
  · refine ⟨_, angleAt_eq banner n, ?_, ?_, ?_, ?_, ?_, ?_⟩
    · omega
    · omega
    · omega
    · omega
    · simp only [F32_EXACT]; omega
    · simp only [F32_EXACT]; omega
  · refine ⟨_, _, angleAt_eq banner n, angleAt_eq banner (n + 1), ?_⟩
    omega
  · rw [angleAt_eq, angleAt_eq]
    congr 2
    omega
  · intro p hp0 hp
    rw [angleAt_eq, angleAt_eq]
    intro h
    simp only [Option.some.injEq, Nat.cast_inj] at h
    omega

/-- Witness for C10: with the all-zero banner, frames 3 and 3 + 7 use
different angles, 7 being a positive shift below the period. -/
theorem C10_angle_wraps_exactly_witness :
    0 < 7 ∧ 7 < 180 ∧ angleAt (fun _ => 0) (3 + 7) ≠ angleAt (fun _ => 0) 3 :=
  ⟨by decide, by decide,
    (C10_angle_wraps_exactly (fun _ => 0) 3).2.2.2.2.2.2.2 7 (by decide) (by decide)⟩

/-- C1, as the code has it: the color image patched into the clear block in
frame `k + 1` is the buffer whose index is the value of `g_active_framebuffer`
at the start of that frame, `k mod 2`; from index 0, frame 1 renders into
buffer 0 and frame 2 into buffer 1.  The patch statement does this from any
state. -/
theorem C1_render_target_is_active (banner : Nat → Nat) (k : Nat) :
    (frameEvents banner (k + 1)).bind targetOf = activeAt banner k
    ∧ (stateAt banner (k + 1)).bind clearTarget = activeAt banner k
    ∧ activeAt banner k = some ((k % 2 : Nat) : Int)
    ∧ (frameEvents banner 1).bind targetOf = some 0
    ∧ (frameEvents banner 2).bind targetOf = some 1
    ∧ (∀ s, (exec banner Stmt.patchClear s).map (fun r => (clearTarget r.1, r.2))
        = some (some s.g_active_framebuffer, [Action.target s.g_active_framebuffer])) := by
  refine ⟨?_, ?_, activeAt_eq banner k, ?_, ?_, fun s => rfl⟩
  · rw [frameEvents_eq, activeAt_eq]; rfl
  · obtain ⟨s, ts, s', _, _, hrun, hact, _, _, hpost⟩ := frame_reached banner k
    rw [activeAt_eq, ← hact]
    have hs : stateAt banner (k + 1) = some s' := by simp [stateAt, hrun]
    rw [hs]
    show clearTarget s' = _
    unfold clearTarget
    rw [hpost.clear, Function.update_same]
  · rw [frameEvents_eq]; rfl
  · rw [frameEvents_eq]; rfl

/-- C1 fails as stated: from the initial state (active index 0) frame 1 renders
into buffer 0, not buffer `1 - 0`, and frame 2 renders into buffer 1. -/
theorem C1_counterexample :
    activeAt (fun _ => 0) 0 = some 0
    ∧ (frameEvents (fun _ => 0) 1).bind targetOf = some 0
    ∧ (frameEvents (fun _ => 0) 1).bind targetOf ≠ some (1 - 0)
    ∧ (frameEvents (fun _ => 0) 2).bind targetOf = some 1
    ∧ (frameEvents (fun _ => 0) 2).bind targetOf ≠ some 0 := by
  refine ⟨rfl, rfl, ?_, rfl, ?_⟩
  · rw [show (frameEvents (fun _ => 0) 1).bind targetOf = some 0 from rfl]; decide
  · rw [show (frameEvents (fun _ => 0) 2).bind targetOf = some 1 from rfl]; decide

/-- C2, as the code has it: every frame goes through BUILD, SUBMIT,
AWAIT_RASTER, REGISTER, COMPOSITE, AWAIT_RETRACE, FLIP.  The banner copy
happens once, strictly after the wait on the rasterizer-done queue returns,
strictly after the buffer is registered with `osViSwapBuffer`, strictly before
the wait on the retrace queue, and it writes the buffer that was registered. -/
theorem C2_frame_order (banner : Nat → Nat) (k : Nat) :
    ∃ t, frameEvents banner (k + 1) = some t
      ∧ phasesOf t = [Phase.BUILD, Phase.SUBMIT, Phase.AWAIT_RASTER, Phase.REGISTER,
          Phase.COMPOSITE, Phase.AWAIT_RETRACE, Phase.FLIP]
      ∧ t.countP isMemcpy = 1
      ∧ t.countP isSwapBuffer = 1
      ∧ t.countP (isRecv Queue.rdp) = 1
      ∧ t.countP (isRecv Queue.retrace) = 1
      ∧ t.findIdx (isRecv Queue.rdp) < t.findIdx isMemcpy
      ∧ t.findIdx isSwapBuffer < t.findIdx isMemcpy
      ∧ t.findIdx isMemcpy < t.findIdx (isRecv Queue.retrace)
      ∧ t.findIdx isMemcpy < t.length
      ∧ compositedOf t = registeredOf t := by
  obtain ⟨_, h11, h12, h13, h15, h17⟩ := frameTrace_positions ((k % 2 : Nat) : Int)
  refine ⟨_, frameEvents_eq banner k, rfl, rfl, rfl, rfl, rfl, ?_, ?_, ?_, ?_, rfl⟩ <;> omega

/-- C2 fails as stated: in frame 1 from the initial state the phases are not
in the claimed order, the copy event coming after the `osViSwapBuffer` event
(positions 13 and 12 of the frame's events). -/
theorem C2_counterexample :
    (frameEvents (fun _ => 0) 1).map phasesOf
        ≠ some [Phase.BUILD, Phase.SUBMIT, Phase.AWAIT_RASTER, Phase.COMPOSITE,
            Phase.REGISTER, Phase.AWAIT_RETRACE, Phase.FLIP]
    ∧ (frameEvents (fun _ => 0) 1).map (fun t => t.findIdx isSwapBuffer) = some 12
    ∧ (frameEvents (fun _ => 0) 1).map (fun t => t.findIdx isMemcpy) = some 13 := by
  refine ⟨?_, rfl, rfl⟩
  rw [show (frameEvents (fun _ => 0) 1).map phasesOf
      = some [Phase.BUILD, Phase.SUBMIT, Phase.AWAIT_RASTER, Phase.REGISTER,
          Phase.COMPOSITE, Phase.AWAIT_RETRACE, Phase.FLIP] from rfl]
  decide

/-- C3: the render target of frame `n + 2` differs from the index registered
with `osViSwapBuffer` in frame `n + 1`, and is that index xor 1.  The render
target is read off the program state: it is the framebuffer index held by
the color-image record of the clear block when `osSpTaskStart` is called in
frame `n + 2`, and still held when that frame ends; in every frame the
operand of the `target` event is the index that record holds at the submit.
On every prefix of the events of any number of frames the display monitor
accepts: no build targets the index last registered, and a build after the
flip targets that index xor 1. -/
theorem C3_build_target_not_registered (banner : Nat → Nat) (n k : Nat) :
    (∃ b t, (frameEvents banner (n + 1)).bind registeredOf = some b
        ∧ (frameEvents banner (n + 2)).bind targetOf = some t
        ∧ (submitStateAt banner (n + 2)).bind clearTarget = some t
        ∧ (stateAt banner (n + 2)).bind clearTarget = some t
        ∧ t ≠ b ∧ t = Int.xor b 1)
    ∧ (submitStateAt banner (n + 1)).bind clearTarget
        = (frameEvents banner (n + 1)).bind targetOf
    ∧ (submitStateAt banner (n + 1)).bind clearTarget = activeAt banner n
    ∧ (submitStateAt banner 1).bind clearTarget = some 0
    ∧ (submitStateAt banner 2).bind clearTarget = some 1
    ∧ (frameEvents banner 1).bind registeredOf = some 0
    ∧ (∃ tr m, traceAt banner n = some tr
        ∧ monitor displayStep { registered := none, flipped := false } (tr.take k) = some m) := by
  refine ⟨?_, ?_, ?_, ?_, ?_, ?_, ?_⟩
  · refine ⟨((n % 2 : Nat) : Int), (((n + 1) % 2 : Nat) : Int), ?_, ?_, ?_, ?_, ?_, ?_⟩
    · rw [frameEvents_eq]; rfl
    · rw [frameEvents_eq]; rfl
    · exact submitStateAt_clear banner (n + 1)
    · exact stateAt_clear banner (n + 1)
    · intro h
      simp only [Nat.cast_inj] at h
      omega
    · exact (xor_one_mod_two n).symm
  · rw [submitStateAt_clear, frameEvents_eq]; rfl
  · rw [submitStateAt_clear, activeAt_eq]
  · exact submitStateAt_clear banner 0
  · exact submitStateAt_clear banner 1
  · rw [frameEvents_eq]; rfl
  · cases n with
    | zero =>
      exact ⟨_, { registered := none, flipped := false }, traceAt_eq banner 0,
        by simp [monitor]⟩
    | succ n =>
      obtain ⟨m, hm⟩ := monitor_take _ _ _ _ k (display_frames n)
      exact ⟨_, m, traceAt_eq banner (n + 1), hm⟩

/-- C8: on every prefix of the events of any number of frames the task-slot
monitor accepts, so no submit happens while a task is outstanding and every
rasterizer wait has a task to wait for; its state, the number of submits
minus the number of rasterizer waits, is at most 1, and 0 after whole frames.
Each frame has exactly one submit, one `osViSwapBuffer`, one wait on each
queue, the rasterizer wait after the submit and the retrace wait after the
registration. -/
theorem C8_single_task_outstanding (banner : Nat → Nat) (n k : Nat) :
    (∃ tr c, traceAt banner n = some tr
        ∧ monitor slotStep 0 (tr.take k) = some c
        ∧ c ≤ 1
        ∧ c + (tr.take k).countP (isRecv Queue.rdp) = (tr.take k).countP isSubmit
        ∧ monitor slotStep 0 tr = some 0)
    ∧ (∃ t, frameEvents banner (n + 1) = some t
        ∧ t.countP isSubmit = 1
        ∧ t.countP (isRecv Queue.rdp) = 1
        ∧ t.countP isSwapBuffer = 1
        ∧ t.countP (isRecv Queue.retrace) = 1
        ∧ t.findIdx isSubmit < t.findIdx (isRecv Queue.rdp)
        ∧ t.findIdx (isRecv Queue.rdp) < t.length
        ∧ t.findIdx isSwapBuffer < t.findIdx (isRecv Queue.retrace)
        ∧ t.findIdx (isRecv Queue.retrace) < t.length) := by
  constructor
  · obtain ⟨c, hc⟩ := monitor_take slotStep _ 0 0 k (slot_frames n)
    have hcount := slot_count _ 0 c hc
    exact ⟨_, c, traceAt_eq banner n, hc, hcount.2 (by omega), by simpa using hcount.1,
      slot_frames n⟩
  · obtain ⟨h10, h11, h12, _, h15, h17⟩ := frameTrace_positions ((n % 2 : Nat) : Int)
    refine ⟨_, frameEvents_eq banner n, rfl, rfl, rfl, rfl, ?_, ?_, ?_, ?_⟩ <;> omega

/-- C5: from any state (any scene, any active index, any earlier content of
`glist`) the build statements of the loop reset the cursor and append exactly
8 records, at indices 0 to 7, all below `MAX_DISPLAYLISTS = 32`; every frame
of a run from the initial state does the same, so the count does not grow. -/
theorem C5_command_list_within_capacity (banner : Nat → Nat) (s : State) (n : Nat) :
    (∃ s' t, execList banner (buildStmts [DL.draw_colored_quad, DL.draw_textured_quad]) s
          = some (s', t)
        ∧ s'.glistp = some 8
        ∧ (recordsOf t).length = 8
        ∧ writtenIndices t = [0, 1, 2, 3, 4, 5, 6, 7]
        ∧ (writtenIndices t).all (fun i => decide (i < MAX_DISPLAYLISTS)) = true
        ∧ (recordsOf t).length ≤ MAX_DISPLAYLISTS)
    ∧ loopBody = [Stmt.angleUpdate, Stmt.matrices]
        ++ buildStmts [DL.draw_colored_quad, DL.draw_textured_quad]
        ++ [Stmt.setTaskData, Stmt.writebackDCacheAll, Stmt.spTaskStart, Stmt.recvMesg Queue.rdp,
            Stmt.viSwapBuffer, Stmt.memcpyBanner, Stmt.writebackDCacheAll,
            Stmt.recvMesg Queue.retrace, Stmt.flip]
    ∧ MAX_DISPLAYLISTS = 32
    ∧ (∃ s1 t, stateAt banner (n + 1) = some s1
        ∧ frameEvents banner (n + 1) = some t
        ∧ s1.glistp = some 8
        ∧ (recordsOf t).length = 8
        ∧ writtenIndices t = [0, 1, 2, 3, 4, 5, 6, 7]
        ∧ (recordsOf t).length ≤ MAX_DISPLAYLISTS) := by
  refine ⟨⟨_, (frameTrace s.g_active_framebuffer).take 9, rfl, rfl, rfl, rfl, rfl, ?_⟩,
    rfl, rfl, ?_⟩
  · show 8 ≤ MAX_DISPLAYLISTS
    decide
  obtain ⟨s0, ts, s1, _, _, hrun, _, _, _, hpost⟩ := frame_reached banner n
  have h8 : 8 ≤ MAX_DISPLAYLISTS := by decide
  exact ⟨s1, _, by simp [stateAt, hrun], frameEvents_eq banner n, hpost.cursor, rfl, rfl, h8⟩

/-- C6: from any state the build statements write exactly segment setup, call
of the RDP reset block, call of the RSP reset block, call of the clear block,
call of the colored quad block, call of the textured quad block, full sync,
end of display list, in this order and nothing else, the color-image record
of the clear block having been set to `g_framebuffer[g_active_framebuffer]`
before the call of the clear block is appended.  In every frame of a run from
the initial state the records are these, the clear block is the six records
of its initialiser with that color image, and the buffer is the one the frame
registers for display. -/
theorem C6_command_list_sequence (banner : Nat → Nat) (s : State) (n : Nat) :
    (∃ s' t, execList banner (buildStmts [DL.draw_colored_quad, DL.draw_textured_quad]) s
          = some (s', t)
        ∧ t = [ Action.gfx 0 (Gfx.spSegment 0 0),
                Action.gfx 1 (Gfx.spDisplayList DL.rdp_init),
                Action.gfx 2 (Gfx.spDisplayList DL.rsp_init),
                Action.target s.g_active_framebuffer,
                Action.gfx 3 (Gfx.spDisplayList DL.clear_framebuffer),
                Action.gfx 4 (Gfx.spDisplayList DL.draw_colored_quad),
                Action.gfx 5 (Gfx.spDisplayList DL.draw_textured_quad),
                Action.gfx 6 Gfx.dpFullSync,
                Action.gfx 7 Gfx.spEndDisplayList ]
        ∧ recordsOf t
            = [ Gfx.spSegment 0 0,
                Gfx.spDisplayList DL.rdp_init,
                Gfx.spDisplayList DL.rsp_init,
                Gfx.spDisplayList DL.clear_framebuffer,
                Gfx.spDisplayList DL.draw_colored_quad,
                Gfx.spDisplayList DL.draw_textured_quad,
                Gfx.dpFullSync,
                Gfx.spEndDisplayList ]
        ∧ (List.range 8).map s'.glist = recordsOf t
        ∧ s'.glistp = some 8
        ∧ s'.g_displaylist_clear_framebuffer 1
            = Gfx.dpSetColorImage ImFmt.rgba ImSiz.b16 SCREEN_W s.g_active_framebuffer)
    ∧ (∃ s0 s1 t, stateAt banner n = some s0
        ∧ stateAt banner (n + 1) = some s1
        ∧ frameEvents banner (n + 1) = some t
        ∧ recordsOf t = frameRecords
        ∧ (List.range 8).map s1.glist = frameRecords
        ∧ (List.range 6).map s1.g_displaylist_clear_framebuffer
            = [ Gfx.dpSetCycleType CycleType.fill,
                Gfx.dpSetColorImage ImFmt.rgba ImSiz.b16 SCREEN_W s0.g_active_framebuffer,
                Gfx.dpPipeSync,
                Gfx.dpSetFillColor 65537,
                Gfx.dpFillRectangle 0 0 319 239,
                Gfx.spEndDisplayList ]
        ∧ targetOf t = some s0.g_active_framebuffer
        ∧ registeredOf t = some s0.g_active_framebuffer) := by
  refine ⟨⟨_, (frameTrace s.g_active_framebuffer).take 9, rfl, rfl, rfl, rfl, rfl, rfl⟩, ?_⟩
  obtain ⟨s0, ts, s1, hrun0, _, hrun1, hact, _, _, hpost⟩ := frame_reached banner n
  have hclr := run_clear_inv banner n s0 ts hrun0
  refine ⟨s0, s1, _, by simp [stateAt, hrun0], by simp [stateAt, hrun1],
    frameEvents_eq banner n, rfl, hpost.records, ?_, ?_, ?_⟩
  · have h6 : List.range 6 = [0, 1, 2, 3, 4, 5] := rfl
    rw [h6, hpost.clear]
    simp only [List.map_cons, List.map_nil, Function.update_same]
    rw [Function.update_noteq (by decide), Function.update_noteq (by decide),
      Function.update_noteq (by decide), Function.update_noteq (by decide),
      Function.update_noteq (by decide),
      hclr 0 (by decide), hclr 2 (by decide), hclr 3 (by decide), hclr 4 (by decide),
      hclr 5 (by decide)]
    rfl
  · rw [hact]; rfl
  · rw [hact]; rfl

/-- C7: from any state, when the loop reaches `osSpTaskStart` the task's data
pointer is the start of `glist`, its size is `sizeof(Gfx)` times the number
of records appended, the records of the submitted region are the appended
ones, the last of them (index `data_size / 8 - 1`) is the end of display list
and the one before it the full sync; every frame of a run from the initial
state submits this task.  The same holds for the build with any list of draw
blocks between the clear block and the full sync, from none up to the 26
that fit the 32 records. -/
theorem C7_terminator_last (banner : Nat → Nat) (s : State) (n : Nat) (draws : List DL)
    (hfit : 6 + draws.length ≤ MAX_DISPLAYLISTS) :
    (∃ sb tb, execList banner throughSubmit s = some (sb, tb)
        ∧ tb.getLast? = some (Action.submit sb.data_ptr sb.data_size)
        ∧ sb.data_ptr = some 0
        ∧ sb.data_size = SIZEOF_GFX * (recordsOf tb).length
        ∧ (List.range (sb.data_size / SIZEOF_GFX)).map sb.glist = recordsOf tb
        ∧ sb.glist (sb.data_size / SIZEOF_GFX - 1) = Gfx.spEndDisplayList
        ∧ sb.glist (sb.data_size / SIZEOF_GFX - 2) = Gfx.dpFullSync)
    ∧ throughSubmit = [Stmt.angleUpdate, Stmt.matrices]
        ++ buildStmts [DL.draw_colored_quad, DL.draw_textured_quad]
        ++ [Stmt.setTaskData, Stmt.writebackDCacheAll, Stmt.spTaskStart]
    ∧ (∃ t, frameEvents banner (n + 1) = some t
        ∧ t.filter isSubmit = [Action.submit (some 0) (SIZEOF_GFX * (recordsOf t).length)])
    ∧ (∃ s' t, execList banner (buildStmts draws ++ [Stmt.setTaskData]) s = some (s', t)
        ∧ recordsOf t
            = [ Gfx.spSegment 0 0, Gfx.spDisplayList DL.rdp_init,
                Gfx.spDisplayList DL.rsp_init, Gfx.spDisplayList DL.clear_framebuffer ]
              ++ draws.map Gfx.spDisplayList ++ [Gfx.dpFullSync, Gfx.spEndDisplayList]
        ∧ s'.data_ptr = some 0
        ∧ s'.data_size = SIZEOF_GFX * (recordsOf t).length
        ∧ (List.range (s'.data_size / SIZEOF_GFX)).map s'.glist = recordsOf t
        ∧ s'.glist (s'.data_size / SIZEOF_GFX - 1) = Gfx.spEndDisplayList
        ∧ s'.glist (s'.data_size / SIZEOF_GFX - 2) = Gfx.dpFullSync) := by
  obtain ⟨sb, hsb, hbptr, hbsize, hbmap, hb7, hb6⟩ := submit_some banner s
  have hbdiv : sb.data_size / SIZEOF_GFX = 8 := by rw [hbsize]; rfl
  refine ⟨⟨sb, (frameTrace s.g_active_framebuffer).take 11, hsb, ?_, hbptr, ?_, ?_, ?_, ?_⟩,
    rfl, ⟨_, frameEvents_eq banner n, rfl⟩, ?_⟩
  · rw [hbptr, hbsize]; rfl
  · rw [hbsize]; rfl
  · rw [hbdiv, hbmap]; rfl
  · rw [hbdiv]; exact hb7
  · rw [hbdiv]; exact hb6
  obtain ⟨s', t, hrun, hrec, hptr, hsize, hmap, hlast, hprev⟩ :=
    build_general banner s draws hfit
  have hlen : (recordsOf t).length = 6 + draws.length := by
    rw [hrec]; simp; omega
  have hdiv : s'.data_size / SIZEOF_GFX = 6 + draws.length := by
    rw [hsize]; simp [SIZEOF_GFX]
  refine ⟨s', t, hrun, hrec, hptr, ?_, ?_, ?_, ?_⟩
  · rw [hsize, hlen]
  · rw [hdiv]; exact hmap
  · rw [hdiv]; exact hlast
  · rw [hdiv]; exact hprev

/-- Witness for C7 with no draw block and with the 26 draw blocks that fill
the buffer, from the initial state. -/
theorem C7_terminator_last_witness :
    6 + ([] : List DL).length ≤ MAX_DISPLAYLISTS
    ∧ 6 + (List.replicate 26 DL.draw_colored_quad).length ≤ MAX_DISPLAYLISTS
    ∧ (∃ s' t, execList (fun _ => 0) (buildStmts [] ++ [Stmt.setTaskData]) State.init
          = some (s', t)
        ∧ s'.data_size = SIZEOF_GFX * (recordsOf t).length
        ∧ s'.glist (s'.data_size / SIZEOF_GFX - 1) = Gfx.spEndDisplayList)
    ∧ (∃ s' t, execList (fun _ => 0)
            (buildStmts (List.replicate 26 DL.draw_colored_quad) ++ [Stmt.setTaskData]) State.init
          = some (s', t)
        ∧ s'.data_size = SIZEOF_GFX * (recordsOf t).length
        ∧ s'.glist (s'.data_size / SIZEOF_GFX - 1) = Gfx.spEndDisplayList) := by
  have h0 : 6 + ([] : List DL).length ≤ MAX_DISPLAYLISTS := by decide
  have h26 : 6 + (List.replicate 26 DL.draw_colored_quad).length ≤ MAX_DISPLAYLISTS := by
    decide
  obtain ⟨s1, t1, hr1, _, _, hs1, _, hl1, _⟩ :=
    (C7_terminator_last (fun _ => 0) State.init 0 [] h0).2.2.2
  obtain ⟨s2, t2, hr2, _, _, hs2, _, hl2, _⟩ :=
    (C7_terminator_last (fun _ => 0) State.init 0
      (List.replicate 26 DL.draw_colored_quad) h26).2.2.2
  exact ⟨h0, h26, ⟨s1, t1, hr1, hs1, hl1⟩, ⟨s2, t2, hr2, hs2, hl2⟩⟩

/-- C9: in a frame started with active index `a` (0 or 1) and any framebuffer
content, exactly one copy is made, into `g_framebuffer[a]`, the buffer the
frame registers for display.  After the frame the first `320*32*2 = 20480`
bytes of that buffer (the pixels of rows 0 to 31) are the banner bytes, the
copy ends inside the buffer, the pixels of rows 32 to 239 are unchanged, the
other buffer is unchanged, and when the wait on the retrace queue returns the
framebuffer already has this content.  Every frame of a run from the initial
state starts with active index 0 or 1. -/
theorem C9_overlay_region (banner : Nat → Nat) (s : State) (a n : Nat) (ha : a < 2)
    (hs : s.g_active_framebuffer = (a : Int)) :
    (∃ s' sw, frame banner s = some (s', frameTrace (a : Int))
        ∧ execList banner throughRetraceWait s = some (sw, (frameTrace (a : Int)).take 16)
        ∧ ((frameTrace (a : Int)).take 16).getLast? = some (Action.recv Queue.retrace)
        ∧ registeredOf (frameTrace (a : Int)) = some (a : Int)
        ∧ (frameTrace (a : Int)).filter isMemcpy = [Action.memcpy (a : Int) BANNER_BYTES]
        ∧ sw.g_framebuffer = s'.g_framebuffer
        ∧ (∀ j, j < BANNER_BYTES →
            s'.g_framebuffer (a * FRAMEBUFFER_BYTES + j) = banner j)
        ∧ (∀ row col, row < 32 → col < SCREEN_W →
            pixelAt s'.g_framebuffer a row col
              = (banner ((row * SCREEN_W + col) * SIZEOF_PIXEL),
                 banner ((row * SCREEN_W + col) * SIZEOF_PIXEL + 1)))
        ∧ (∀ row col, 32 ≤ row → row < SCREEN_H → col < SCREEN_W →
            pixelAt s'.g_framebuffer a row col = pixelAt s.g_framebuffer a row col)
        ∧ (∀ j, j < FRAMEBUFFER_BYTES →
            s'.g_framebuffer ((1 - a) * FRAMEBUFFER_BYTES + j)
              = s.g_framebuffer ((1 - a) * FRAMEBUFFER_BYTES + j))
        ∧ (∀ i, i < a * FRAMEBUFFER_BYTES ∨ a * FRAMEBUFFER_BYTES + BANNER_BYTES ≤ i →
            s'.g_framebuffer i = s.g_framebuffer i))
    ∧ BANNER_BYTES = SCREEN_W * 32 * SIZEOF_PIXEL
    ∧ BANNER_BYTES = 20480
    ∧ a * FRAMEBUFFER_BYTES + BANNER_BYTES ≤ (a + 1) * FRAMEBUFFER_BYTES
    ∧ (∃ s0, stateAt banner n = some s0
        ∧ (s0.g_active_framebuffer = 0 ∨ s0.g_active_framebuffer = 1)) := by
  have h01 : s.g_active_framebuffer = 0 ∨ s.g_active_framebuffer = 1 := by
    rw [hs]
    rcases (by omega : a = 0 ∨ a = 1) with h | h
    · left; rw [h]; rfl
    · right; rw [h]; rfl
  obtain ⟨s', hfr, hpost⟩ := frame_some banner s h01
  obtain ⟨sw, hsw, hswfb⟩ := retrace_wait_some banner s h01
  have hpix : s'.g_framebuffer
      = memcpy s.g_framebuffer (a * FRAMEBUFFER_BYTES) banner BANNER_BYTES := by
    rw [hpost.pixels, hs, Int.toNat_ofNat]
  rw [hs] at hfr hsw
  have hB : BANNER_BYTES = 20480 := rfl
  have hF : FRAMEBUFFER_BYTES = 153600 := rfl
  refine ⟨⟨s', sw, hfr, hsw, rfl, rfl, rfl, ?_, ?_, ?_, ?_, ?_, ?_⟩, rfl, rfl, ?_, ?_⟩
  · rw [hswfb, hpost.pixels]
  · intro j hj
    rw [hpix]
    exact memcpy_inside _ _ _ _ j hj
  · intro row col hrow hcol
    simp only [SCREEN_W] at hcol
    have h1 : (row * SCREEN_W + col) * SIZEOF_PIXEL + 1 < BANNER_BYTES := by
      simp only [SCREEN_W, SIZEOF_PIXEL, hB]; omega
    simp only [pixelAt, pixelOffset, hpix]
    rw [memcpy_inside _ _ _ _ _ (by omega), Nat.add_assoc, memcpy_inside _ _ _ _ _ h1]
  · intro row col hlo hrow hcol
    simp only [SCREEN_W] at hcol
    simp only [SCREEN_H] at hrow
    have h1 : BANNER_BYTES ≤ (row * SCREEN_W + col) * SIZEOF_PIXEL := by
      simp only [SCREEN_W, SIZEOF_PIXEL, hB]; omega
    simp only [pixelAt, pixelOffset, hpix]
    rw [memcpy_outside _ _ _ _ _ (by omega), memcpy_outside _ _ _ _ _ (by omega)]
  · intro j hj
    rw [hpix]
    apply memcpy_outside
    rw [hF, hB] at *
    rcases (by omega : a = 0 ∨ a = 1) with h | h <;> subst h <;> omega
  · intro i hi
    rw [hpix]
    exact memcpy_outside _ _ _ _ i hi
  · rw [hF, hB]; omega
  · obtain ⟨s0, hs0, hact, _⟩ := stateAt_some banner n
    refine ⟨s0, hs0, ?_⟩
    rcases Nat.mod_two_eq_zero_or_one n with h | h
    · left; rw [hact, h]; rfl
    · right; rw [hact, h]; rfl

/-- Witness for C9: the first frame from the initial state with the banner
whose byte `i` is `i mod 251`. -/
theorem C9_overlay_region_witness :
    (0 : Nat) < 2
    ∧ State.init.g_active_framebuffer = ((0 : Nat) : Int)
    ∧ (∃ s', frame (fun i => i % 251) State.init = some (s', frameTrace ((0 : Nat) : Int))
        ∧ s'.g_framebuffer (0 * FRAMEBUFFER_BYTES + 300) = 300 % 251
        ∧ pixelAt s'.g_framebuffer 0 100 7 = pixelAt State.init.g_framebuffer 0 100 7
        ∧ s'.g_framebuffer ((1 - 0) * FRAMEBUFFER_BYTES + 9)
            = State.init.g_framebuffer ((1 - 0) * FRAMEBUFFER_BYTES + 9)) := by
  obtain ⟨⟨s', _, hfr, _, _, _, _, _, hin, _, hrows, hother, _⟩, _⟩ :=
    C9_overlay_region (fun i => i % 251) State.init 0 0 (by decide) rfl
  exact ⟨by decide, rfl, s', hfr, hin 300 (by decide),
    hrows 100 7 (by decide) (by decide) (by decide), hother 9 (by decide)⟩

end FirstDemo
